import Mathlib

set_option maxRecDepth 40000

/-!
Verification of the `investing_agents` A2A server against its design
specification.

The development shallowly embeds the first-party logic of the repository:

* `src/investing_agents/agent_executor.py`:
  - `InvestmentAgent._get_basic_response` (the keyword response classifier),
  - `InvestmentAgent.analyze` (the agent facade around the optional model
    client, including its prompt construction and error recovery),
  - `InvestmentAgent.__init__` (model-client configuration),
  - `InvestmentAgentExecutor.execute` (message-text extraction and event
    publication) and `InvestmentAgentExecutor.cancel`;
* `src/investing_agents/__main__.py`:
  - `create_agent_card` (the discovery descriptor) and the environment
    configuration reads in `main`.

Python strings are embedded as Lean `String`s; Python `str.lower`,
substring membership (`in`) and `str.strip` are embedded as executable
functions over `List Char` below.  The external model client is embedded
as a function from the submitted prompt to either generated text or an
exception message, so that the facade's `try/except` branch is explicit.
-/

namespace InvestingAgents

/-! ## String primitives (embedding of the Python string operations used) -/

/-- `leadsWith n h` holds when the character list `n` is an initial segment
of `h` (helper for substring search). -/
def leadsWith : List Char → List Char → Bool
  | [], _ => true
  | _ :: _, [] => false
  | a :: n, b :: h => a == b && leadsWith n h

/-- `occursIn n h` holds when `n` occurs as a contiguous segment of `h`:
the embedding of Python's `n in h` on strings. -/
def occursIn : List Char → List Char → Bool
  | n, [] => n.isEmpty
  | n, c :: h => leadsWith n (c :: h) || occursIn n h

/-- Embedding of Python `needle in haystack` for strings. -/
def containsSubstr (haystack needle : String) : Bool :=
  occursIn needle.data haystack.data

/-- Embedding of Python `str.lower()` (ASCII case folding). -/
def lowerStr (s : String) : String :=
  ⟨s.data.map Char.toLower⟩

/-- Character-list form of Python `str.strip()`: drop whitespace from the
front, then from the back. -/
def stripList (l : List Char) : List Char :=
  (((l.dropWhile Char.isWhitespace).reverse).dropWhile Char.isWhitespace).reverse

/-- Embedding of Python `str.strip()`. -/
def pyStrip (s : String) : String :=
  ⟨stripList s.data⟩

/-- Python `any(word in q for word in words)`. -/
def keywordMatch (q : String) (words : List String) : Bool :=
  words.any (fun w => containsSubstr q w)

/-! ## The four canned response templates
(verbatim from `InvestmentAgent._get_basic_response`) -/

def diversificationTemplate : String :=
  "Investment Portfolio Diversification Advice:\n\n1. **Asset Allocation**: Consider spreading investments across different asset classes:\n   - Stocks (equity) for growth potential\n   - Bonds for stability and income\n   - Real estate for inflation hedge\n   - Cash equivalents for liquidity\n\n2. **Geographic Diversification**: Don\x27t limit yourself to domestic markets\n   \n3. **Sector Diversification**: Invest across various industries to reduce sector-specific risk\n\n4. **Risk Assessment**: Align your portfolio with your risk tolerance and investment timeline\n\n5. **Regular Rebalancing**: Review and adjust your portfolio periodically\n\nRemember: Past performance doesn\x27t guarantee future results. Consider consulting with a financial advisor for personalized advice."

def riskTemplate : String :=
  "Risk Management in Investing:\n\n1. **Understand Your Risk Tolerance**: Consider your age, income, financial goals, and comfort with volatility\n\n2. **Risk Mitigation Strategies**:\n   - Diversification across assets\n   - Dollar-cost averaging\n   - Setting stop-loss orders\n   - Regular portfolio reviews\n\n3. **Conservative Investment Options**:\n   - Government bonds\n   - High-grade corporate bonds\n   - Index funds\n   - Money market accounts\n\n4. **Risk vs. Return**: Higher potential returns typically come with higher risk\n\n5. **Time Horizon**: Longer investment periods can help weather market volatility\n\nAlways assess your personal financial situation before making investment decisions."

def stockTemplate : String :=
  "Stock Market Investment Guidance:\n\n1. **Research Before Investing**: \n   - Company fundamentals (earnings, revenue, debt)\n   - Industry trends and competitive position\n   - Management quality\n   \n2. **Investment Approaches**:\n   - Value investing: Undervalued stocks with strong fundamentals\n   - Growth investing: Companies with high growth potential\n   - Index investing: Low-cost diversification through index funds\n\n3. **Key Metrics to Consider**:\n   - P/E ratio (Price-to-Earnings)\n   - Dividend yield\n   - Market capitalization\n   - Revenue and earnings growth\n\n4. **Long-term Perspective**: Avoid emotional decisions based on short-term market fluctuations\n\n5. **Professional Guidance**: Consider consulting a financial advisor for personalized stock recommendations\n\nDisclaimer: This is general information and not specific investment advice."

def welcomeTemplate : String :=
  "Welcome to the Investment Strategy Agent!\n\nI can help you with:\n\n1. **Portfolio Management**: Diversification strategies and asset allocation\n2. **Risk Assessment**: Understanding and managing investment risk\n3. **Investment Strategies**: Growth, value, income, and index investing\n4. **Market Analysis**: General market trends and sector analysis\n5. **Financial Planning**: Long-term investment planning and goal setting\n\nWhat specific investment topic would you like to explore?\n\nNote: For AI-powered personalized analysis, please configure the GOOGLE_API_KEY environment variable with your Google API key to enable Gemini integration.\n\nDisclaimer: This information is for educational purposes only and should not be considered as financial advice. Always consult with a qualified financial advisor before making investment decisions."

/-! ## The response classifier (`InvestmentAgent._get_basic_response`) -/

/-- Embedding of `InvestmentAgent._get_basic_response`. -/
def get_basic_response (query : String) : String :=
  let query_lower := lowerStr query
  if keywordMatch query_lower ["diversif", "portfolio", "allocat"] then
    diversificationTemplate
  else if keywordMatch query_lower ["risk", "safe", "conserv"] then
    riskTemplate
  else if keywordMatch query_lower ["stock", "equity", "share"] then
    stockTemplate
  else
    welcomeTemplate

/-! ## The agent facade (`InvestmentAgent`) -/

/-- Result of one call to the external model client: either generated text
(`response.text`) or a raised exception carrying `str(e)`. -/
inductive ModelResult where
  | success : String → ModelResult
  | failure : String → ModelResult
  deriving DecidableEq

/-- Fixed prompt text placed before the user query
(from the f-string in `InvestmentAgent.analyze`). -/
def promptIntro : String :=
  "You are an investment advisor agent. Provide professional, \ninformative responses about investment strategies, financial markets, and portfolio management.\n\nUser query: "

/-- Fixed prompt text placed after the user query. -/
def promptOutro : String :=
  "\n\nProvide a clear, helpful response focused on investment strategy and financial analysis.\nInclude relevant considerations like risk management, diversification, and market trends where appropriate."

/-- The prompt built by `InvestmentAgent.analyze` around the user query. -/
def buildPrompt (query : String) : String :=
  promptIntro ++ query ++ promptOutro

/-- Fixed error text placed before `str(e)` in the recovery branch of
`InvestmentAgent.analyze`. -/
def errorIntro : String :=
  "Error generating AI response: "

/-- Fixed error text placed after `str(e)`. -/
def errorOutro : String :=
  ". Please provide a GOOGLE_API_KEY environment variable."

/-- State of an `InvestmentAgent` after `__init__`: the resolved API key
and the optional model client.  The client is embedded as the behavior of
`client.models.generate_content` on a submitted prompt. -/
structure InvestmentAgent where
  api_key : Option String
  client : Option (String → ModelResult)

/-- Python `a or b` on an optional string, where `None` and `""` are falsy
(used for `api_key or os.getenv('GOOGLE_API_KEY')`). -/
def pyOrStr (a b : Option String) : Option String :=
  match a with
  | some s => if s.isEmpty then b else some s
  | none => b

/-- Python truthiness of `self.api_key` (`None` and `""` are falsy). -/
def truthyStr : Option String → Bool
  | some s => !s.isEmpty
  | none => false

/-- Embedding of `InvestmentAgent.__init__`.  `genaiAvailable` records
whether `from google import genai` succeeded (on `ImportError` the module
is `None`); `genaiBehavior` is the behavior of the client the constructor
would build; `api_key` is the constructor argument and `env` the process
environment. -/
def InvestmentAgent.init (genaiAvailable : Bool) (genaiBehavior : String → ModelResult)
    (api_key : Option String) (env : String → Option String) : InvestmentAgent :=
  let key := pyOrStr api_key (env "GOOGLE_API_KEY")
  { api_key := key
    client := if genaiAvailable && truthyStr key then some genaiBehavior else none }

/-- Embedding of `InvestmentAgent.analyze`: with a configured client,
submit the built prompt and return the model text, recovering any raised
exception into the fixed error string; otherwise fall back to
`_get_basic_response`. -/
def InvestmentAgent.analyze (agent : InvestmentAgent) (query : String) : String :=
  match agent.client with
  | some generate =>
    match generate (buildPrompt query) with
    | ModelResult.success text => text
    | ModelResult.failure e => errorIntro ++ e ++ errorOutro
  | none => get_basic_response query

/-- The list of prompts `InvestmentAgent.analyze` submits to the external
model on one invocation (one call when a client is configured, none
otherwise). -/
def InvestmentAgent.modelCalls (agent : InvestmentAgent) (query : String) : List String :=
  match agent.client with
  | some _ => [buildPrompt query]
  | none => []

/-! ## The executor adapter (`InvestmentAgentExecutor`) -/

/-- One part of an inbound message.  `text = none` embeds a part without a
usable `root.text` attribute (absent or `None`); `text = some t` embeds a
part whose `root.text` is the string `t`. -/
structure Part where
  text : Option String

/-- An inbound message: an ordered sequence of parts. -/
structure Message where
  parts : List Part

/-- The text accumulated by the extraction loop of
`InvestmentAgentExecutor.execute`: each part whose `root.text` is truthy
(present and non-empty) contributes its text followed by one space. -/
def collectText : List Part → String
  | [] => ""
  | p :: ps =>
    (match p.text with
     | some t => if t.isEmpty then "" else t ++ " "
     | none => "") ++ collectText ps

/-- Fixed greeting substituted for an empty extracted query. -/
def defaultGreeting : String := "Hello, what can you help me with?"

/-- The raw (unstripped) query text `execute` accumulates from
`context.message` (`""` when the message or its part list is falsy). -/
def rawQuery : Option Message → String
  | some m => if m.parts.isEmpty then "" else collectText m.parts
  | none => ""

/-- The query `InvestmentAgentExecutor.execute` hands to the agent:
accumulated part text, stripped, with the fixed greeting substituted when
the result is empty. -/
def extractUserQuery (message : Option Message) : String :=
  let user_query := pyStrip (rawQuery message)
  if user_query.isEmpty then defaultGreeting else user_query

/-- Embedding of `InvestmentAgentExecutor.execute`: the list of text
payloads enqueued on the event queue for one inbound message. -/
def InvestmentAgentExecutor.execute (agent : InvestmentAgent)
    (message : Option Message) : List String :=
  [agent.analyze (extractUserQuery message)]

/-- Embedding of `InvestmentAgentExecutor.cancel`: unconditionally raises
`Exception('Cancel operation is not supported for this agent')`, for any
request context and event queue. -/
def InvestmentAgentExecutor.cancel {Ctx Q : Type} (_context : Ctx) (_event_queue : Q) :
    Except String Unit :=
  Except.error "Cancel operation is not supported for this agent"

/-! ## The process entry point (`__main__.py`) -/

/-- An `a2a.types.AgentSkill` record as populated by `create_agent_card`. -/
structure AgentSkill where
  id : String
  name : String
  description : String
  tags : List String
  examples : List String

/-- An `a2a.types.AgentCapabilities` record. -/
structure AgentCapabilities where
  streaming : Bool

/-- An `a2a.types.AgentCard` record as populated by `create_agent_card`. -/
structure AgentCard where
  name : String
  description : String
  url : String
  version : String
  default_input_modes : List String
  default_output_modes : List String
  capabilities : AgentCapabilities
  skills : List AgentSkill

/-- Embedding of `create_agent_card` from `__main__.py`. -/
def create_agent_card (url : String) : AgentCard :=
  let portfolio_skill : AgentSkill :=
    { id := "portfolio_management"
      name := "Portfolio Management and Diversification"
      description := "Provides guidance on portfolio diversification, asset allocation, and investment strategy"
      tags := ["portfolio", "diversification", "asset allocation", "investment strategy"]
      examples := ["How should I diversify my investment portfolio?",
                   "What is a good asset allocation strategy?",
                   "Help me build a balanced portfolio"] }
  let risk_skill : AgentSkill :=
    { id := "risk_analysis"
      name := "Investment Risk Analysis"
      description := "Analyzes investment risk and provides risk management strategies"
      tags := ["risk", "risk management", "volatility", "conservative investing"]
      examples := ["How do I assess investment risk?",
                   "What are conservative investment options?",
                   "How can I reduce portfolio risk?"] }
  let market_skill : AgentSkill :=
    { id := "market_analysis"
      name := "Market and Stock Analysis"
      description := "Provides insights on stock market investing, equity analysis, and market trends"
      tags := ["stocks", "equity", "market analysis", "trading"]
      examples := ["How do I evaluate stocks?",
                   "What should I know about stock market investing?",
                   "Explain value investing vs growth investing"] }
  let planning_skill : AgentSkill :=
    { id := "financial_planning"
      name := "Investment Planning and Strategy"
      description := "Helps with long-term investment planning and financial goal setting"
      tags := ["planning", "strategy", "long-term investing", "financial goals"]
      examples := ["How should I plan for retirement?",
                   "What is a good long-term investment strategy?",
                   "Help me set investment goals"] }
  { name := "Investment Strategy Agent"
    description := "An AI-powered agent that provides investment advice, portfolio management guidance, risk analysis, and market insights. Helps users make informed investment decisions through comprehensive financial analysis."
    url := url
    version := "0.1.0"
    default_input_modes := ["text"]
    default_output_modes := ["text"]
    capabilities := { streaming := true }
    skills := [portfolio_skill, risk_skill, market_skill, planning_skill] }

/-- `main`: `host = os.getenv('HOST', '0.0.0.0')`. -/
def main_host (env : String → Option String) : String :=
  (env "HOST").getD "0.0.0.0"

/-- Embedding of Python `int(s)` on decimal numerals: the digit value when
every character is a decimal digit, `none` (a raised `ValueError`)
otherwise. -/
def pyParseNat (s : String) : Option Nat :=
  if !s.data.isEmpty && s.data.all Char.isDigit then
    some (s.data.foldl (fun n c => 10 * n + (c.toNat - 48)) 0)
  else
    none

/-- `main`: `port = int(os.getenv('PORT', '8000'))` (`none` when the string
is not a numeral, where Python `int()` would raise). -/
def main_port (env : String → Option String) : Option Nat :=
  pyParseNat ((env "PORT").getD "8000")

/-- `main`: `server_url = os.getenv('SERVER_URL', f'http://localhost:{port}/')`. -/
def main_server_url (env : String → Option String) (port : Nat) : String :=
  (env "SERVER_URL").getD ("http://localhost:" ++ toString port ++ "/")

/-- `main`: `google_api_key = os.getenv('GOOGLE_API_KEY')`. -/
def main_google_api_key (env : String → Option String) : Option String :=
  env "GOOGLE_API_KEY"

/-- The agent the server is built around: `main` passes
`api_key=google_api_key` to `InvestmentAgentExecutor`, which forwards it to
`InvestmentAgent`. -/
def main_agent (genaiAvailable : Bool) (genaiBehavior : String → ModelResult)
    (env : String → Option String) : InvestmentAgent :=
  InvestmentAgent.init genaiAvailable genaiBehavior (main_google_api_key env) env

/-! ## Spec-side definitions (for refinement comparison only) -/

/-- Space-joining of a list of strings, following the spec's words
"concatenate the text of every part (space-joined)". -/
def specJoinSpace : List String → String
  | [] => ""
  | [t] => t
  | t :: u :: ts => t ++ " " ++ specJoinSpace (u :: ts)

/-- Spec-side: the text of every part of a message that carries text
(the claim's "the text of every part"). -/
def partTexts (message : Option Message) : List String :=
  match message with
  | some m => m.parts.filterMap Part.text
  | none => []

/-- Spec-side extraction exactly as the claim words it: the text of every
part, space-joined, with surrounding whitespace trimmed (and the fixed
greeting substituted when empty, per the spec's §4.4). -/
def specExtractedQuery (message : Option Message) : String :=
  let q := pyStrip (specJoinSpace (partTexts message))
  if q.isEmpty then defaultGreeting else q

/-- The non-empty texts carried by a list of parts. -/
def nonemptyTextsOf (ps : List Part) : List String :=
  ps.filterMap (fun p =>
    match p.text with
    | some t => if t.isEmpty then none else some t
    | none => none)

/-- The non-empty texts carried by a message's parts. -/
def nonemptyTexts (message : Option Message) : List String :=
  match message with
  | some m => nonemptyTextsOf m.parts
  | none => []

/-- Spec-side extraction amended to join only the non-empty part texts. -/
def specExtractedQueryAmended (message : Option Message) : String :=
  let q := pyStrip (specJoinSpace (nonemptyTexts message))
  if q.isEmpty then defaultGreeting else q

/-! ## Helper lemmas on the string primitives -/

theorem str_data_empty : ("" : String).data = [] := rfl

theorem str_empty_append (s : String) : "" ++ s = s := by
  apply String.ext
  simp [String.data_append]

theorem leadsWith_self_append (n t : List Char) : leadsWith n (n ++ t) = true := by
  induction n with
  | nil => simp [leadsWith]
  | cons a n ih => simp [leadsWith, ih]

theorem occursIn_of_leadsWith {n h : List Char} (hl : leadsWith n h = true) :
    occursIn n h = true := by
  cases h with
  | nil =>
    cases n with
    | nil => simp [occursIn]
    | cons a n => simp [leadsWith] at hl
  | cons c t => simp [occursIn, hl]

theorem occursIn_cons {n t : List Char} (c : Char) (ho : occursIn n t = true) :
    occursIn n (c :: t) = true := by
  simp [occursIn, ho]

theorem occursIn_append_left {n h : List Char} (pre : List Char)
    (ho : occursIn n h = true) : occursIn n (pre ++ h) = true := by
  induction pre with
  | nil => simpa using ho
  | cons c pre ih => simpa using occursIn_cons c ih

theorem occursIn_self_append (n t : List Char) : occursIn n (n ++ t) = true :=
  occursIn_of_leadsWith (leadsWith_self_append n t)

theorem containsSubstr_of_middle (a b c : String) :
    containsSubstr (a ++ b ++ c) b = true := by
  have hd : (a ++ b ++ c).data = a.data ++ (b.data ++ c.data) := by
    simp [String.data_append]
  unfold containsSubstr
  rw [hd]
  exact occursIn_append_left a.data (occursIn_self_append b.data c.data)

theorem whitespace_space : Char.isWhitespace ' ' = true := by decide

theorem stripList_cons_of_whitespace {c : Char} (hc : Char.isWhitespace c = true)
    (l : List Char) : stripList (c :: l) = stripList l := by
  simp [stripList, List.dropWhile, hc]

theorem stripList_append_space (l : List Char) :
    stripList (l ++ [' ']) = stripList l := by
  induction l with
  | nil => simp [stripList, List.dropWhile]
  | cons c l ih =>
    by_cases hc : Char.isWhitespace c = true
    · rw [List.cons_append, stripList_cons_of_whitespace hc,
        stripList_cons_of_whitespace hc]
      exact ih
    · have hc' : Char.isWhitespace c = false := by
        cases hcv : Char.isWhitespace c with
        | false => rfl
        | true => exact absurd hcv hc
      simp only [stripList, List.cons_append, List.dropWhile, hc']
      rw [List.reverse_cons, List.reverse_cons]
      have hrev : (l ++ [' ']).reverse = ' ' :: l.reverse := by simp
      have hstep : List.dropWhile Char.isWhitespace ((l ++ [' ']).reverse ++ [c]) =
          List.dropWhile Char.isWhitespace (l.reverse ++ [c]) := by
        rw [hrev, List.cons_append, List.dropWhile, whitespace_space]
      exact congrArg List.reverse hstep

theorem pyStrip_append_space (s : String) : pyStrip (s ++ " ") = pyStrip s := by
  unfold pyStrip
  have : (s ++ " ").data = s.data ++ [' '] := by simp [String.data_append]
  rw [this, stripList_append_space]

theorem str_append_empty (s : String) : s ++ "" = s := by
  apply String.ext
  simp [String.data_append]

theorem str_append_assoc (a b c : String) : a ++ b ++ c = a ++ (b ++ c) := by
  apply String.ext
  simp [String.data_append]

/-- Helper: each string of the list followed by one space, concatenated
(the shape of the accumulation loop in `execute`). -/
def joinTrail : List String → String
  | [] => ""
  | t :: ts => t ++ " " ++ joinTrail ts

theorem collectText_eq_joinTrail (ps : List Part) :
    collectText ps = joinTrail (nonemptyTextsOf ps) := by
  induction ps with
  | nil => rfl
  | cons p ps ih =>
    cases hpt : p.text with
    | none =>
      simp [collectText, nonemptyTextsOf, hpt, List.filterMap_cons, ih,
        str_empty_append]
    | some t =>
      by_cases ht : t.isEmpty
      · have h1 : collectText (p :: ps) = "" ++ collectText ps := by
          simp [collectText, hpt, ht]
        have h2 : nonemptyTextsOf (p :: ps) = nonemptyTextsOf ps := by
          simp [nonemptyTextsOf, List.filterMap_cons, hpt, ht]
        rw [h1, h2, str_empty_append, ih]
      · have h1 : collectText (p :: ps) = (t ++ " ") ++ collectText ps := by
          simp [collectText, hpt, ht]
        have h2 : nonemptyTextsOf (p :: ps) = t :: nonemptyTextsOf ps := by
          simp [nonemptyTextsOf, List.filterMap_cons, hpt, ht]
        rw [h1, h2, ih]
        rfl

theorem joinTrail_eq_specJoinSpace (t : String) (ts : List String) :
    joinTrail (t :: ts) = specJoinSpace (t :: ts) ++ " " := by
  induction ts generalizing t with
  | nil =>
    show t ++ " " ++ joinTrail [] = specJoinSpace [t] ++ " "
    rw [show joinTrail ([] : List String) = "" from rfl, str_append_empty]
    rfl
  | cons u ts ih =>
    show t ++ " " ++ joinTrail (u :: ts) = (t ++ " " ++ specJoinSpace (u :: ts)) ++ " "
    rw [ih u, ← str_append_assoc]

theorem pyStrip_collectText (ps : List Part) :
    pyStrip (collectText ps) = pyStrip (specJoinSpace (nonemptyTextsOf ps)) := by
  rw [collectText_eq_joinTrail]
  cases hts : nonemptyTextsOf ps with
  | nil => rfl
  | cons t ts => rw [joinTrail_eq_specJoinSpace, pyStrip_append_space]

theorem pyStrip_rawQuery (message : Option Message) :
    pyStrip (rawQuery message) = pyStrip (specJoinSpace (nonemptyTexts message)) := by
  cases message with
  | none => rfl
  | some m =>
    cases hps : m.parts with
    | nil =>
      simp only [rawQuery, nonemptyTexts, hps, nonemptyTextsOf, List.isEmpty_nil,
        List.filterMap_nil, if_true]
      rfl
    | cons p ps =>
      have h1 : rawQuery (some m) = collectText m.parts := by
        simp [rawQuery, hps]
      rw [h1, pyStrip_collectText]
      simp [nonemptyTexts]

theorem extractUserQuery_eq_amended (message : Option Message) :
    extractUserQuery message = specExtractedQueryAmended message := by
  unfold extractUserQuery specExtractedQueryAmended
  rw [pyStrip_rawQuery]

theorem containsSubstr_append_left (a b n : String) (h : containsSubstr b n = true) :
    containsSubstr (a ++ b) n = true := by
  unfold containsSubstr at h ⊢
  rw [String.data_append]
  exact occursIn_append_left a.data h

/-- Every classifier output is one of the four templates. -/
theorem get_basic_response_mem (q : String) :
    get_basic_response q = diversificationTemplate ∨
    get_basic_response q = riskTemplate ∨
    get_basic_response q = stockTemplate ∨
    get_basic_response q = welcomeTemplate := by
  unfold get_basic_response
  by_cases h1 : keywordMatch (lowerStr q) ["diversif", "portfolio", "allocat"] = true
  · simp [h1]
  · by_cases h2 : keywordMatch (lowerStr q) ["risk", "safe", "conserv"] = true
    · simp [h1, h2]
    · by_cases h3 : keywordMatch (lowerStr q) ["stock", "equity", "share"] = true
      · simp [h1, h2, h3]
      · simp [h1, h2, h3]

/-- C1: the response classifier matches case-insensitively (on the
lowercased input) against its keyword groups in fixed priority order —
the diversification group `["diversif", "portfolio", "allocat"]` first,
then the risk group `["risk", "safe", "conserv"]`, then the stock group
`["stock", "equity", "share"]` — returning the template of the first
group with a matching keyword and the welcome template when no group
matches; in particular any input containing a diversification keyword
(regardless of the other groups) yields the diversification template
verbatim. -/
theorem classifier_priority_order (query : String) :
    (keywordMatch (lowerStr query) ["diversif", "portfolio", "allocat"] = true →
      get_basic_response query = diversificationTemplate) ∧
    (keywordMatch (lowerStr query) ["diversif", "portfolio", "allocat"] = false →
      keywordMatch (lowerStr query) ["risk", "safe", "conserv"] = true →
      get_basic_response query = riskTemplate) ∧
    (keywordMatch (lowerStr query) ["diversif", "portfolio", "allocat"] = false →
      keywordMatch (lowerStr query) ["risk", "safe", "conserv"] = false →
      keywordMatch (lowerStr query) ["stock", "equity", "share"] = true →
      get_basic_response query = stockTemplate) ∧
    (keywordMatch (lowerStr query) ["diversif", "portfolio", "allocat"] = false →
      keywordMatch (lowerStr query) ["risk", "safe", "conserv"] = false →
      keywordMatch (lowerStr query) ["stock", "equity", "share"] = false →
      get_basic_response query = welcomeTemplate) := by
  refine ⟨?_, ?_, ?_, ?_⟩ <;> intros <;> simp [get_basic_response, *]

/-- Witness for C1: one concrete input per branch of the classifier. -/
theorem classifier_priority_order_witness :
    get_basic_response "How should I DIVERSIFY, and is it risky?" = diversificationTemplate ∧
    get_basic_response "Is this SAFE for my stock?" = riskTemplate ∧
    get_basic_response "which Shares to buy" = stockTemplate ∧
    get_basic_response "What is the weather today?" = welcomeTemplate :=
  ⟨(classifier_priority_order "How should I DIVERSIFY, and is it risky?").1 (by decide),
   (classifier_priority_order "Is this SAFE for my stock?").2.1 (by decide) (by decide),
   (classifier_priority_order "which Shares to buy").2.2.1 (by decide) (by decide) (by decide),
   (classifier_priority_order "What is the weather today?").2.2.2
     (by decide) (by decide) (by decide)⟩

/-- C2 counterexample: the classifier's range is not a set of five
templates — no five-element set of strings is both closed under and
covered by the classifier's outputs (its range has only four elements). -/
theorem classifier_range_not_five :
    ¬ ∃ s : Finset String, s.card = 5 ∧ (∀ q, get_basic_response q ∈ s) ∧
      ∀ t ∈ s, ∃ q, get_basic_response q = t := by
  rintro ⟨s, hcard, -, hsurj⟩
  have hsub : s ⊆ ({diversificationTemplate, riskTemplate, stockTemplate,
      welcomeTemplate} : Finset String) := by
    intro t ht
    obtain ⟨q, hq⟩ := hsurj t ht
    have hm := get_basic_response_mem q
    rw [hq] at hm
    simp only [Finset.mem_insert, Finset.mem_singleton]
    tauto
  have hle : s.card ≤ 4 := by
    calc s.card ≤ ({diversificationTemplate, riskTemplate, stockTemplate,
            welcomeTemplate} : Finset String).card := Finset.card_le_card hsub
      _ ≤ 4 := by
          apply le_trans (Finset.card_insert_le _ _)
          apply Nat.succ_le_succ
          apply le_trans (Finset.card_insert_le _ _)
          apply Nat.succ_le_succ
          apply le_trans (Finset.card_insert_le _ _)
          apply Nat.succ_le_succ
          simp
  omega

/-- C2 (amended): the response classifier is a total function whose range
is exactly the four fixed templates: every input maps to one of the four
pairwise-distinct templates, and each of the four is attained. -/
theorem classifier_range_exactly_four :
    (∀ q, get_basic_response q ∈ ({diversificationTemplate, riskTemplate,
      stockTemplate, welcomeTemplate} : Finset String)) ∧
    ({diversificationTemplate, riskTemplate, stockTemplate,
      welcomeTemplate} : Finset String).card = 4 ∧
    ∀ t ∈ ({diversificationTemplate, riskTemplate, stockTemplate,
      welcomeTemplate} : Finset String), ∃ q, get_basic_response q = t := by
  refine ⟨?_, ?_, ?_⟩
  · intro q
    have hm := get_basic_response_mem q
    simp only [Finset.mem_insert, Finset.mem_singleton]
    tauto
  · decide
  · intro t ht
    simp only [Finset.mem_insert, Finset.mem_singleton] at ht
    rcases ht with h | h | h | h
    · exact ⟨"diversif", by rw [h]; rfl⟩
    · exact ⟨"risk", by rw [h]; rfl⟩
    · exact ⟨"stock", by rw [h]; rfl⟩
    · exact ⟨"What is the weather today?", by rw [h]; rfl⟩

/-- Witness for the amended C2: the risk template is in the classifier's
range. -/
theorem classifier_range_exactly_four_witness :
    ∃ q, get_basic_response q = riskTemplate :=
  classifier_range_exactly_four.2.2 riskTemplate (by decide)

/-- C3: with no model client configured, `analyze` returns the
classifier's result; with a client configured it submits exactly one model
call carrying the fixed instructional prompt built around the query — a
prompt that embeds the query and mentions risk, diversification and
market trends — and on success returns the model's text verbatim. -/
theorem analyze_facade_behavior (agent : InvestmentAgent) (query : String) :
    (agent.client = none → agent.analyze query = get_basic_response query) ∧
    (∀ generate, agent.client = some generate →
      agent.modelCalls query = [buildPrompt query] ∧
      ∀ text, generate (buildPrompt query) = ModelResult.success text →
        agent.analyze query = text) ∧
    containsSubstr (buildPrompt query) query = true ∧
    containsSubstr (buildPrompt query) "risk" = true ∧
    containsSubstr (buildPrompt query) "diversification" = true ∧
    containsSubstr (buildPrompt query) "market trends" = true := by
  refine ⟨?_, ?_, ?_, ?_, ?_, ?_⟩
  · intro h
    simp [InvestmentAgent.analyze, h]
  · intro generate h
    refine ⟨by simp [InvestmentAgent.modelCalls, h], ?_⟩
    intro text htext
    simp [InvestmentAgent.analyze, h, htext]
  · exact containsSubstr_of_middle promptIntro query promptOutro
  · exact containsSubstr_append_left (promptIntro ++ query) promptOutro "risk" (by decide)
  · exact containsSubstr_append_left (promptIntro ++ query) promptOutro "diversification"
      (by decide)
  · exact containsSubstr_append_left (promptIntro ++ query) promptOutro "market trends"
      (by decide)

/-- Witness for C3: a client-less agent falls back to the classifier, and
a configured agent returns the successful model text after one call. -/
theorem analyze_facade_behavior_witness :
    InvestmentAgent.analyze ⟨none, none⟩ "hi" = get_basic_response "hi" ∧
    InvestmentAgent.modelCalls
      ⟨some "k", some (fun _ => ModelResult.success "generated")⟩ "hi" =
      [buildPrompt "hi"] ∧
    InvestmentAgent.analyze
      ⟨some "k", some (fun _ => ModelResult.success "generated")⟩ "hi" = "generated" :=
  ⟨(analyze_facade_behavior ⟨none, none⟩ "hi").1 rfl,
   ((analyze_facade_behavior ⟨some "k", some (fun _ => ModelResult.success "generated")⟩
       "hi").2.1 (fun _ => ModelResult.success "generated") rfl).1,
   ((analyze_facade_behavior ⟨some "k", some (fun _ => ModelResult.success "generated")⟩
       "hi").2.1 (fun _ => ModelResult.success "generated") rfl).2 "generated" rfl⟩

/-- C4: when the configured model call raises, `analyze` recovers: it
returns the fixed error string (a normal return, not an exception), which
contains the exception's message and the `GOOGLE_API_KEY` configuration
hint. -/
theorem analyze_recovers_model_failure (agent : InvestmentAgent) (query e : String)
    (generate : String → ModelResult) (hc : agent.client = some generate)
    (he : generate (buildPrompt query) = ModelResult.failure e) :
    agent.analyze query = errorIntro ++ e ++ errorOutro ∧
    containsSubstr (agent.analyze query) e = true ∧
    containsSubstr (agent.analyze query) "GOOGLE_API_KEY" = true := by
  have hres : agent.analyze query = errorIntro ++ e ++ errorOutro := by
    simp [InvestmentAgent.analyze, hc, he]
  refine ⟨hres, ?_, ?_⟩
  · rw [hres]
    exact containsSubstr_of_middle errorIntro e errorOutro
  · rw [hres, str_append_assoc]
    exact containsSubstr_append_left errorIntro (e ++ errorOutro) "GOOGLE_API_KEY"
      (containsSubstr_append_left e errorOutro "GOOGLE_API_KEY" (by decide))

/-- Witness for C4: a model client raising with message "quota exceeded"
yields a normal response containing that message and the credential hint. -/
theorem analyze_recovers_model_failure_witness :
    containsSubstr
      (InvestmentAgent.analyze
        ⟨some "k", some (fun _ => ModelResult.failure "quota exceeded")⟩ "help")
      "quota exceeded" = true ∧
    containsSubstr
      (InvestmentAgent.analyze
        ⟨some "k", some (fun _ => ModelResult.failure "quota exceeded")⟩ "help")
      "GOOGLE_API_KEY" = true :=
  ⟨(analyze_recovers_model_failure
      ⟨some "k", some (fun _ => ModelResult.failure "quota exceeded")⟩ "help"
      "quota exceeded" (fun _ => ModelResult.failure "quota exceeded") rfl rfl).2.1,
   (analyze_recovers_model_failure
      ⟨some "k", some (fun _ => ModelResult.failure "quota exceeded")⟩ "help"
      "quota exceeded" (fun _ => ModelResult.failure "quota exceeded") rfl rfl).2.2⟩

/-- C5 counterexample: on a message whose parts carry the texts "a", ""
and "b", space-joining the text of every part and trimming (the claim's
wording) gives "a  b", but `execute` extracts "a b" — the loop skips a
part whose text is the empty string. -/
theorem execute_extraction_counterexample :
    extractUserQuery (some ⟨[⟨some "a"⟩, ⟨some ""⟩, ⟨some "b"⟩]⟩) = "a b" ∧
    specExtractedQuery (some ⟨[⟨some "a"⟩, ⟨some ""⟩, ⟨some "b"⟩]⟩) = "a  b" ∧
    ("a b" : String) ≠ "a  b" :=
  ⟨by decide, by decide, by decide⟩

/-- C5 (amended): for every inbound message, `execute` extracts the query
by space-joining the texts of the parts that carry non-empty text and
trimming surrounding whitespace (with the fixed greeting substituted when
empty), invokes the agent facade once on the result, and publishes exactly
one outbound text event carrying the facade's result. -/
theorem execute_publishes_one_event (agent : InvestmentAgent) (message : Option Message) :
    InvestmentAgentExecutor.execute agent message =
      [agent.analyze (specExtractedQueryAmended message)] ∧
    (InvestmentAgentExecutor.execute agent message).length = 1 := by
  constructor
  · unfold InvestmentAgentExecutor.execute
    rw [extractUserQuery_eq_amended]
  · rfl

/-- Helper: a part list none of whose parts carries text accumulates no
query text. -/
theorem collectText_all_textless {ps : List Part} (h : ∀ p ∈ ps, p.text = none) :
    collectText ps = "" := by
  induction ps with
  | nil => rfl
  | cons p ps ih =>
    have hp : p.text = none := h p (List.mem_cons_self p ps)
    have hrest : collectText ps = "" := ih fun q hq => h q (List.mem_cons_of_mem p hq)
    simp [collectText, hp, hrest]

/-- C6: whenever the accumulated message text strips to the empty string —
in particular for a missing message or a message none of whose parts
carries text — `execute` substitutes the fixed greeting
"Hello, what can you help me with?" as the query. -/
theorem empty_query_substitutes_greeting (message : Option Message) :
    ((pyStrip (rawQuery message)).isEmpty = true →
      extractUserQuery message = defaultGreeting) ∧
    extractUserQuery none = defaultGreeting ∧
    ∀ ps : List Part, (∀ p ∈ ps, p.text = none) →
      extractUserQuery (some ⟨ps⟩) = defaultGreeting := by
  refine ⟨?_, rfl, ?_⟩
  · intro h
    simp [extractUserQuery, h]
  · intro ps hps
    have hraw : rawQuery (some ⟨ps⟩) = "" := by
      simp [rawQuery, collectText_all_textless hps]
    have hstrip : (pyStrip (rawQuery (some ⟨ps⟩))).isEmpty = true := by
      rw [hraw]; decide
    simp [extractUserQuery, hstrip]

/-- Witness for C6: a whitespace-only message body and an all-textless
part list both yield the greeting. -/
theorem empty_query_substitutes_greeting_witness :
    extractUserQuery (some ⟨[⟨some "   "⟩]⟩) = defaultGreeting ∧
    extractUserQuery (some ⟨[⟨none⟩, ⟨none⟩]⟩) = defaultGreeting :=
  ⟨(empty_query_substitutes_greeting (some ⟨[⟨some "   "⟩]⟩)).1 (by decide),
   (empty_query_substitutes_greeting (some ⟨[⟨none⟩, ⟨none⟩]⟩)).2.2
     [⟨none⟩, ⟨none⟩]
     (by
       intro p hp
       rcases List.mem_cons.mp hp with h | h
       · rw [h]
       · rw [List.mem_singleton.mp h])⟩

/-- C7: for every request context and event queue, of any type, `cancel`
raises the fixed fatal error and never returns normally — there is no
silent no-op or partial-cleanup outcome. -/
theorem cancel_always_raises {Ctx Q : Type} (context : Ctx) (event_queue : Q) :
    InvestmentAgentExecutor.cancel context event_queue =
      Except.error "Cancel operation is not supported for this agent" ∧
    ∀ u : Unit, InvestmentAgentExecutor.cancel context event_queue ≠ Except.ok u :=
  ⟨rfl, fun _ h => Except.noConfusion h⟩

/-- C8: for any URL, the agent card lists exactly four skills, with
identifiers `portfolio_management`, `risk_analysis`, `market_analysis`
and `financial_planning` in that order; `create_agent_card` is a pure
function of the URL, so repeated constructions yield the same descriptor. -/
theorem agent_card_has_four_skills (url : String) :
    (create_agent_card url).skills.map AgentSkill.id =
      ["portfolio_management", "risk_analysis", "market_analysis", "financial_planning"] ∧
    (create_agent_card url).skills.length = 4 :=
  ⟨rfl, rfl⟩

/-- The externally advertised server URL `main` would compute (the port
parse composed with the `SERVER_URL` read). -/
def main_effective_server_url (env : String → Option String) : Option String :=
  (main_port env).map (main_server_url env)

/-- C9 counterexample: with `HOST=example.com` and `PORT=1234` (and
`SERVER_URL` unset), the default server URL is `http://localhost:1234/`;
it does not mention the configured host at all, and changing the host
(to `other.invalid`) leaves it unchanged, so the default is not derived
from the host. -/
theorem server_url_default_ignores_host :
    main_host (fun n => if n = "HOST" then some "example.com"
      else if n = "PORT" then some "1234" else none) = "example.com" ∧
    main_effective_server_url (fun n => if n = "HOST" then some "example.com"
      else if n = "PORT" then some "1234" else none) = some "http://localhost:1234/" ∧
    main_effective_server_url (fun n => if n = "HOST" then some "other.invalid"
      else if n = "PORT" then some "1234" else none) = some "http://localhost:1234/" ∧
    containsSubstr "http://localhost:1234/" "example.com" = false :=
  ⟨rfl, by decide, by decide, by decide⟩

/-- C9 (amended): configuration defaults when the environment variables
are unset: `HOST` defaults to `0.0.0.0`, `PORT` to `8000`, and
`SERVER_URL` to `http://localhost:{port}/` — derived from the port only,
with the host component fixed as `localhost`; absence of the
`GOOGLE_API_KEY` credential does not fail startup and routes every
response to the canned-template path. -/
theorem env_config_defaults (env : String → Option String) :
    (env "HOST" = none → main_host env = "0.0.0.0") ∧
    (env "PORT" = none → main_port env = some 8000) ∧
    (env "SERVER_URL" = none → ∀ port : Nat,
      main_server_url env port = "http://localhost:" ++ toString port ++ "/") ∧
    (env "GOOGLE_API_KEY" = none →
      ∀ (genaiAvailable : Bool) (genaiBehavior : String → ModelResult) (query : String),
        (main_agent genaiAvailable genaiBehavior env).analyze query =
          get_basic_response query) := by
  refine ⟨?_, ?_, ?_, ?_⟩
  · intro h
    simp [main_host, h]
  · intro h
    rw [main_port, h]
    decide
  · intro h port
    simp [main_server_url, h]
  · intro h genaiAvailable genaiBehavior query
    simp [main_agent, main_google_api_key, InvestmentAgent.init, pyOrStr, h,
      truthyStr, InvestmentAgent.analyze]

/-- Witness for the amended C9: the defaults in a fully empty environment. -/
theorem env_config_defaults_witness :
    main_host (fun _ => none) = "0.0.0.0" ∧
    main_port (fun _ => none) = some 8000 ∧
    main_server_url (fun _ => none) 8000 = "http://localhost:8000/" ∧
    (main_agent true (fun _ => ModelResult.success "generated")
      (fun _ => none)).analyze "hello" = get_basic_response "hello" :=
  ⟨(env_config_defaults (fun _ => none)).1 rfl,
   (env_config_defaults (fun _ => none)).2.1 rfl,
   (env_config_defaults (fun _ => none)).2.2.1 rfl 8000,
   (env_config_defaults (fun _ => none)).2.2.2 rfl true
     (fun _ => ModelResult.success "generated") "hello"⟩

/-- C10: the model client is configured exactly when the generative-model
library imported successfully and the resolved API key (constructor
argument, falling back to the environment) is truthy; with the import
failed, every query takes the canned-response path even when a credential
is present; and `analyze` depends only on the client field fixed at
construction (not on any per-request re-read of the key). -/
theorem client_configured_iff (genaiAvailable : Bool)
    (genaiBehavior : String → ModelResult) (api_key : Option String)
    (env : String → Option String) :
    ((InvestmentAgent.init genaiAvailable genaiBehavior api_key env).client.isSome =
      (genaiAvailable && truthyStr (pyOrStr api_key (env "GOOGLE_API_KEY")))) ∧
    (genaiAvailable = false → ∀ query,
      (InvestmentAgent.init genaiAvailable genaiBehavior api_key env).analyze query =
        get_basic_response query) ∧
    ∀ (k₁ k₂ : Option String) (c : Option (String → ModelResult)) (query : String),
      InvestmentAgent.analyze ⟨k₁, c⟩ query = InvestmentAgent.analyze ⟨k₂, c⟩ query := by
  refine ⟨?_, ?_, ?_⟩
  · cases h : genaiAvailable && truthyStr (pyOrStr api_key (env "GOOGLE_API_KEY")) with
    | true => simp [InvestmentAgent.init, h]
    | false => simp [InvestmentAgent.init, h]
  · intro h query
    simp [InvestmentAgent.init, h, InvestmentAgent.analyze]
  · intro k₁ k₂ c query
    rfl

/-- Witness for C10: with the library import failed and a credential
present, no client is configured and a query takes the canned path. -/
theorem client_configured_iff_witness :
    (InvestmentAgent.init false (fun _ => ModelResult.success "generated")
      (some "secret") (fun _ => none)).client.isSome = false ∧
    (InvestmentAgent.init false (fun _ => ModelResult.success "generated")
      (some "secret") (fun _ => none)).analyze "hi" = get_basic_response "hi" :=
  ⟨by
    rw [(client_configured_iff false (fun _ => ModelResult.success "generated")
      (some "secret") (fun _ => none)).1]
    rfl,
   (client_configured_iff false (fun _ => ModelResult.success "generated")
      (some "secret") (fun _ => none)).2.1 rfl "hi"⟩

end InvestingAgents
